import Mathlib

/-!
Verification development for the `contracts` repository's debt/reward
settlement and withdrawal ledger (the `ValidatorTransfers` core described in
spec.md).  The repository sources available under `src/` contain only the
test suite (`src/test/...`) and the deployment scripts (`src/deployments/...`);
the contract implementations themselves (ValidatorTransfers, Pools,
ValidatorsRegistry, ...) are not part of `src/`.  The settlement-ledger
operations below are therefore modelled from the spec (section 4 of spec.md),
with the behaviour cross-checked against the scenarios exercised in
`src/test/validators/ValidatorTransfers.test.js` and
`src/test/common/utils.js`.  Amounts are in wei (the tests use
`ether('0.034871228')` etc.); identifiers and addresses are abstracted as
naturals.
-/

namespace Contracts

/-- From `src/deployments/settings.js` (`initialSettings.userDepositMinUnit`). -/
def userDepositMinUnit : Nat := 1000000000000000

/-- From `src/deployments/settings.js` (`initialSettings.validatorDepositAmount`),
the staking unit: 32 ether in wei. -/
def validatorDepositAmount : Nat := 32000000000000000000

/-- From `src/deployments/settings.js` (`initialSettings.maintainerFee`),
the initial maintainer fee in basis points. -/
def initialMaintainerFee : Nat := 523

/-- Modelled from the spec (section 4.3): the fixed fee denominator for the
basis-point maintainer fee; the spec fixes it to 10000. -/
def FEE_DENOMINATOR : Nat := 10000

/-- A (entityId, sender, recipient) key of the contribution ledger, the
`hash(entityId, sender, recipient)` key of the spec's Contribution records. -/
abbrev UserKey := Nat × Nat × Nat

/-- Modelled from the spec (section 3, Validator): the validator record held
by the Validators Registry, with the deposit terms snapshotted at
registration and the mutable current-entity pointer.  The field is named
`entityId` as in `src/test/common/utils.js` (`validator.entityId`). -/
structure ValidatorRecord where
  depositAmount : Nat
  maintainerFee : Nat
  minStakingDuration : Nat
  withdrawalCredentials : Nat
  entityId : Nat
  deriving DecidableEq, Repr

/-- Modelled from the spec (section 3, ValidatorDebt): one record per
validator, accumulated across transfers. -/
structure ValidatorDebt where
  userDebt : Nat
  maintainerDebt : Nat
  deriving DecidableEq, Repr

/-- Modelled from the spec (section 3, EntityReward): the reward captured for
a displaced entity at transfer time; keyed by the displaced entity id as in
`src/test/common/utils.js` (`validatorTransfers.entityRewards(prevEntityId)`). -/
structure EntityReward where
  validatorId : Nat
  amount : Nat
  deriving DecidableEq, Repr

/-- The `UserWithdrawn` event of spec section 6. -/
structure UserWithdrawnEvent where
  collectorEntityId : Nat
  sender : Nat
  withdrawer : Nat
  depositAmount : Nat
  rewardAmount : Nat
  deriving DecidableEq, Repr

/-- The `ValidatorTransferred` event of spec section 6. -/
structure ValidatorTransferredEvent where
  validatorId : Nat
  prevEntityId : Nat
  newEntityId : Nat
  userDebt : Nat
  maintainerDebt : Nat
  newMaintainerFee : Nat
  newMinStakingDuration : Nat
  newStakingDuration : Nat
  deriving DecidableEq, Repr

/-- The `TransfersPaused` event of spec section 6. -/
structure TransfersPausedEvent where
  isPaused : Bool
  issuer : Nat
  deriving DecidableEq, Repr

/-- Modelled from the spec (section 7): the error taxonomy of the ledger. -/
inductive LedgerError where
  | PermissionDenied
  | UnknownValidator
  | UnknownEntity
  | UnknownCollectorEntity
  | NoShare
  | NothingToWithdraw
  | TransfersPaused
  | EntityFinalized
  | EntityNotFinalized
  | ValidatorAlreadyExists
  deriving DecidableEq, Repr

/-- Modelled from the spec (section 6): the verbatim user-visible revert
reasons the implementation must reproduce. -/
def LedgerError.reason : LedgerError → String
  | .PermissionDenied => "Permission denied."
  | .UnknownValidator => "Validator is not registered."
  | .UnknownEntity => "Entity is not registered."
  | .UnknownCollectorEntity => "Collector entity is not registered."
  | .NoShare => "User does not have a share in this collector entity."
  | .NothingToWithdraw => "Nothing to withdraw."
  | .TransfersPaused => "Validator transfers are paused."
  | .EntityFinalized => "Entity is already finalized."
  | .EntityNotFinalized => "Entity has not been finalized."
  | .ValidatorAlreadyExists => "Validator is already registered."

/-- Modelled from the spec (sections 2 and 3): the shared ledger state.
`finalized`/`collectedAmount` belong to the Entity Registry, `contributions`
to the Contribution Ledger, `validators` to the Validator Registry,
`validatorDebts`/`entityRewards` and the per-user paid flags to the
Settlement Ledger.  `walletFunded` is the observed Wallet Lifecycle signal
("funds available"), and `isAdmin`/`authorizedCollector` the Access Control
collaborator (`authorize(caller, capability) -> bool`). -/
structure LedgerState where
  finalized : Nat → Bool
  collectedAmount : Nat → Nat
  contributions : UserKey → Nat
  validators : Nat → Option ValidatorRecord
  validatorDebts : Nat → ValidatorDebt
  entityRewards : Nat → Option EntityReward
  walletFunded : Nat → Bool
  withdrawnDeposit : UserKey → Bool
  withdrawnReward : UserKey → Bool
  paused : Bool
  isAdmin : Nat → Bool
  authorizedCollector : Nat → Nat → Bool

/-- Modelled from the spec (section 4.4): a user's reward share for an
entity, apportioned from the entity's `EntityReward` record by
`principal / Entity.collectedAmount` with integer division. -/
def rewardShare (s : LedgerState) (entityId principal : Nat) : Nat :=
  match s.entityRewards entityId with
  | none => 0
  | some er => er.amount * principal / s.collectedAmount entityId

/-- Modelled from the spec (sections 4.4 and 4.5): whether the reward backing
an entity's `EntityReward` record is currently resolvable, i.e. the Wallet
Lifecycle has signalled that the funds behind the recorded validator debt are
available. -/
def rewardResolvable (s : LedgerState) (entityId : Nat) : Bool :=
  match s.entityRewards entityId with
  | none => false
  | some er => s.walletFunded er.validatorId

/-- Modelled from the spec (section 4.4): the principal portion a withdraw
call pays out — the recorded contribution unless already paid. -/
def depositPayout (s : LedgerState) (entityId sender recipient : Nat) : Nat :=
  if s.withdrawnDeposit (entityId, sender, recipient) = true then 0
  else s.contributions (entityId, sender, recipient)

/-- Modelled from the spec (section 4.4): the reward portion a withdraw call
pays out — the user's apportioned share, but only once the Wallet Lifecycle
signal has made it resolvable and only if not already paid. -/
def rewardPayout (s : LedgerState) (entityId sender recipient : Nat) : Nat :=
  if rewardResolvable s entityId = true
      ∧ s.withdrawnReward (entityId, sender, recipient) = false then
    rewardShare s entityId (s.contributions (entityId, sender, recipient))
  else 0

/-- Modelled from the spec (section 4.4): `withdraw(entityId, sender,
recipient)`.  Fails with `UnknownCollectorEntity` if the entity was never
finalized, with `NoShare` if the caller pair has no recorded contribution and
no pending reward, pays out the currently payable principal and resolvable
reward, marking them paid (the paid flags are the spec's per-key zeroing),
and fails with `NothingToWithdraw` when nothing is currently payable. -/
def withdraw (s : LedgerState) (entityId sender recipient : Nat) :
    Except LedgerError (LedgerState × UserWithdrawnEvent) :=
  if s.finalized entityId = false then .error .UnknownCollectorEntity
  else if s.contributions (entityId, sender, recipient) = 0
      ∧ rewardShare s entityId (s.contributions (entityId, sender, recipient)) = 0 then
    .error .NoShare
  else if depositPayout s entityId sender recipient
      + rewardPayout s entityId sender recipient = 0 then
    .error .NothingToWithdraw
  else
    .ok ({ s with
            withdrawnDeposit := fun k =>
              if k = (entityId, sender, recipient)
                  ∧ depositPayout s entityId sender recipient ≠ 0 then true
              else s.withdrawnDeposit k,
            withdrawnReward := fun k =>
              if k = (entityId, sender, recipient)
                  ∧ rewardPayout s entityId sender recipient ≠ 0 then true
              else s.withdrawnReward k },
          { collectorEntityId := entityId, sender := sender, withdrawer := recipient,
            depositAmount := depositPayout s entityId sender recipient,
            rewardAmount := rewardPayout s entityId sender recipient })

/-- Modelled from the spec (section 4.3): `registerTransfer` — permission
check (authorized collector of the destination entity), pause flag, validator
and destination-entity existence, then the fee split, the `EntityReward`
record for the displaced entity, the accumulated `ValidatorDebt`, the
current-entity pointer and maintainer-fee refresh, and the
`ValidatorTransferred` event. -/
def registerTransfer (s : LedgerState)
    (caller validatorId newEntityId accruedReward
      newMaintainerFee newMinStakingDuration newStakingDuration : Nat) :
    Except LedgerError (LedgerState × ValidatorTransferredEvent) :=
  if s.authorizedCollector caller newEntityId = false then .error .PermissionDenied
  else if s.paused = true then .error .TransfersPaused
  else
    match s.validators validatorId with
    | none => .error .UnknownValidator
    | some v =>
      if s.finalized newEntityId = false then .error .UnknownEntity
      else
        let maintainerDebtDelta := accruedReward * v.maintainerFee / FEE_DENOMINATOR
        let userDebtDelta := accruedReward - maintainerDebtDelta
        let debt := s.validatorDebts validatorId
        .ok ({ s with
                validatorDebts := fun k =>
                  if k = validatorId then
                    { userDebt := debt.userDebt + userDebtDelta,
                      maintainerDebt := debt.maintainerDebt + maintainerDebtDelta }
                  else s.validatorDebts k,
                entityRewards := fun k =>
                  if k = v.entityId then
                    some { validatorId := validatorId, amount := userDebtDelta }
                  else s.entityRewards k,
                validators := fun k =>
                  if k = validatorId then
                    some { v with maintainerFee := newMaintainerFee,
                                  entityId := newEntityId }
                  else s.validators k },
              { validatorId := validatorId, prevEntityId := v.entityId,
                newEntityId := newEntityId, userDebt := userDebtDelta,
                maintainerDebt := maintainerDebtDelta,
                newMaintainerFee := newMaintainerFee,
                newMinStakingDuration := newMinStakingDuration,
                newStakingDuration := newStakingDuration })

/-- Modelled from the spec (sections 4.3 and 5): the admin-only pause toggle
with its `TransfersPaused` event. -/
def setPaused (s : LedgerState) (caller : Nat) (flag : Bool) :
    Except LedgerError (LedgerState × TransfersPausedEvent) :=
  if s.isAdmin caller = false then .error .PermissionDenied
  else .ok ({ s with paused := flag }, { isPaused := flag, issuer := caller })

/-- Modelled from the spec (section 2, Wallet Lifecycle; the tests'
`withdrawals.enableWithdrawals(wallet)`): the external signal that the funds
backing a validator's debt are available. -/
def enableWithdrawals (s : LedgerState) (validatorId : Nat) : LedgerState :=
  { s with walletFunded := fun k => if k = validatorId then true else s.walletFunded k }

/-- Modelled from the spec (sections 3 and 4.1; the tests' `addDeposit`):
deposit into an entity — increments the contribution and the entity's
collected amount, fails once finalized, and finalizes the entity as soon as
the collected amount reaches the staking unit (spec section 3 lifecycle:
"finalized when collectedAmount reaches the staking unit"; no separate
finalize call appears at the public interface in the tests). -/
def addDeposit (s : LedgerState) (entityId sender recipient amount : Nat) :
    Except LedgerError LedgerState :=
  if s.finalized entityId = true then .error .EntityFinalized
  else
    .ok { s with
          contributions := fun k =>
            if k = (entityId, sender, recipient) then s.contributions k + amount
            else s.contributions k,
          collectedAmount := fun k =>
            if k = entityId then s.collectedAmount entityId + amount
            else s.collectedAmount k,
          finalized := fun k =>
            if k = entityId then
              decide (s.collectedAmount entityId + amount = validatorDepositAmount)
            else s.finalized k }

/-- Modelled from the spec (section 4.2): `register(entityId,
validatorIdentity, terms)` — creates the validator record once the entity is
finalized and the identity fresh. -/
def register (s : LedgerState)
    (entityId validatorId depositAmount feeBps minStakingDuration
      withdrawalCredentials : Nat) : Except LedgerError LedgerState :=
  if s.finalized entityId = false then .error .EntityNotFinalized
  else
    match s.validators validatorId with
    | some _ => .error .ValidatorAlreadyExists
    | none =>
      .ok { s with
            validators := fun k =>
              if k = validatorId then
                some { depositAmount := depositAmount, maintainerFee := feeBps,
                       minStakingDuration := minStakingDuration,
                       withdrawalCredentials := withdrawalCredentials,
                       entityId := entityId }
              else s.validators k }

/-- The state after a withdraw call: unchanged when the call fails (spec
section 7: every failure aborts with no partial state mutation). -/
def withdrawStep (s : LedgerState) (entityId sender recipient : Nat) : LedgerState :=
  match withdraw s entityId sender recipient with
  | .ok (s', _) => s'
  | .error _ => s

/-- The observable outcome of a withdraw call: the emitted `UserWithdrawn`
event on success, the error on failure. -/
def withdrawOutcome (s : LedgerState) (entityId sender recipient : Nat) :
    Except LedgerError UserWithdrawnEvent :=
  match withdraw s entityId sender recipient with
  | .ok (_, ev) => .ok ev
  | .error e => .error e

/-- The state after a registerTransfer call: unchanged when the call fails. -/
def registerTransferStep (s : LedgerState)
    (caller validatorId newEntityId accruedReward
      newMaintainerFee newMinStakingDuration newStakingDuration : Nat) : LedgerState :=
  match registerTransfer s caller validatorId newEntityId accruedReward
      newMaintainerFee newMinStakingDuration newStakingDuration with
  | .ok (s', _) => s'
  | .error _ => s

/-- The observable outcome of a registerTransfer call. -/
def registerTransferOutcome (s : LedgerState)
    (caller validatorId newEntityId accruedReward
      newMaintainerFee newMinStakingDuration newStakingDuration : Nat) :
    Except LedgerError ValidatorTransferredEvent :=
  match registerTransfer s caller validatorId newEntityId accruedReward
      newMaintainerFee newMinStakingDuration newStakingDuration with
  | .ok (_, ev) => .ok ev
  | .error e => .error e

/-- The state after a setPaused call: unchanged when the call fails. -/
def setPausedStep (s : LedgerState) (caller : Nat) (flag : Bool) : LedgerState :=
  match setPaused s caller flag with
  | .ok (s', _) => s'
  | .error _ => s

/-- The state after an addDeposit call: unchanged when the call fails. -/
def addDepositStep (s : LedgerState) (entityId sender recipient amount : Nat) :
    LedgerState :=
  match addDeposit s entityId sender recipient amount with
  | .ok s' => s'
  | .error _ => s

/-- The validator registered in the concrete test scenario of
`ValidatorTransfers.test.js`: 32-ether deposit, maintainer fee 2000 basis
points, initially assigned to entity 1. -/
def demoValidator : ValidatorRecord :=
  { depositAmount := validatorDepositAmount, maintainerFee := 2000,
    minStakingDuration := 0, withdrawalCredentials := 0, entityId := 1 }

/-- Concrete ledger state mirroring the test scenario right before the
transfer: entities 1, 2, 3 finalized at the 32-ether staking unit, entity 4
fresh, the (sender 10, withdrawer 11) pair funded entities 1 and 2 in full,
validator 5 assigned to entity 1, address 100 the admin, address 200 the
authorized collector (the Pools contract). -/
def demoPreState : LedgerState where
  finalized := fun e => decide (e = 1 ∨ e = 2 ∨ e = 3)
  collectedAmount := fun e =>
    if e = 1 ∨ e = 2 ∨ e = 3 then validatorDepositAmount else 0
  contributions := fun k =>
    if k = (1, 10, 11) ∨ k = (2, 10, 11) then validatorDepositAmount else 0
  validators := fun v => if v = 5 then some demoValidator else none
  validatorDebts := fun _ => { userDebt := 0, maintainerDebt := 0 }
  entityRewards := fun _ => none
  walletFunded := fun _ => false
  withdrawnDeposit := fun _ => false
  withdrawnReward := fun _ => false
  paused := false
  isAdmin := fun a => decide (a = 100)
  authorizedCollector := fun c _ => decide (c = 200)

/-- The state after the test scenario's transfer of validator 5 from entity 1
to entity 2 with accrued reward 0.034871228 ether and new maintainer fee
2000. -/
def demoState : LedgerState :=
  registerTransferStep demoPreState 200 5 2 34871228000000000 2000 0 0

/-- The state after a second transfer of validator 5, from entity 2 on to
entity 3, with accrued reward 0.01 ether. -/
def demoState2 : LedgerState :=
  registerTransferStep demoState 200 5 3 10000000000000000 2000 0 0

/-- The state after the depositor pair (10, 11) has withdrawn its principal
from entity 1 in the post-transfer demo state. -/
def demoPaidState : LedgerState := withdrawStep demoState 1 10 11

/-- First state of the reward-record overwrite scenario: validator 5
transferred from entity 1 to entity 2 with accrued reward 10000 wei, writing
the reward record for displaced entity 1. -/
def cexState1 : LedgerState := registerTransferStep demoPreState 200 5 2 10000 2000 0 0

/-- Second state of the overwrite scenario: validator 5 transferred back from
entity 2 to entity 1 (accrued reward 40000 wei), so entity 1 holds it
again. -/
def cexState2 : LedgerState := registerTransferStep cexState1 200 5 1 40000 2000 0 0

/-- Third state of the overwrite scenario: validator 5 transferred from
entity 1 on to entity 3 with accrued reward 20000 wei, displacing entity 1 a
second time. -/
def cexState3 : LedgerState := registerTransferStep cexState2 200 5 3 20000 2000 0 0

end Contracts

namespace Contracts

/-- Inversion principle for a successful transfer: the guards all passed and
the new state and event are exactly the spec's fee split, debt accumulation,
displaced-entity reward record and pointer update. -/
theorem registerTransfer_ok_inv
    {s : LedgerState} {caller vid nid R fee msd sd : Nat}
    {s' : LedgerState} {ev : ValidatorTransferredEvent}
    (h : registerTransfer s caller vid nid R fee msd sd = .ok (s', ev)) :
    ∃ v, s.validators vid = some v
      ∧ s.authorizedCollector caller nid = true
      ∧ s.paused = false
      ∧ s.finalized nid = true
      ∧ ev = { validatorId := vid, prevEntityId := v.entityId, newEntityId := nid,
               userDebt := R - R * v.maintainerFee / FEE_DENOMINATOR,
               maintainerDebt := R * v.maintainerFee / FEE_DENOMINATOR,
               newMaintainerFee := fee, newMinStakingDuration := msd,
               newStakingDuration := sd }
      ∧ s' = { s with
               validatorDebts := fun k =>
                 if k = vid then
                   { userDebt := (s.validatorDebts vid).userDebt
                       + (R - R * v.maintainerFee / FEE_DENOMINATOR),
                     maintainerDebt := (s.validatorDebts vid).maintainerDebt
                       + R * v.maintainerFee / FEE_DENOMINATOR }
                 else s.validatorDebts k,
               entityRewards := fun k =>
                 if k = v.entityId then
                   some { validatorId := vid,
                          amount := R - R * v.maintainerFee / FEE_DENOMINATOR }
                 else s.entityRewards k,
               validators := fun k =>
                 if k = vid then
                   some { v with maintainerFee := fee, entityId := nid }
                 else s.validators k } := by
  unfold registerTransfer at h
  split at h
  · exact absurd h (by simp)
  split at h
  · exact absurd h (by simp)
  rename_i hauth hpause
  split at h
  · exact absurd h (by simp)
  rename_i v hv
  split at h
  · exact absurd h (by simp)
  rename_i hfin
  refine ⟨v, hv, by simpa using hauth, by simpa using hpause, by simpa using hfin,
    ?_, ?_⟩
  · have := (Except.ok.injEq _ _).mp h
    exact (Prod.mk.injEq _ _ _ _).mp this |>.2.symm
  · have := (Except.ok.injEq _ _).mp h
    exact (Prod.mk.injEq _ _ _ _).mp this |>.1.symm

/-- A user with zero principal has a zero apportioned reward share. -/
theorem rewardShare_zero (s : LedgerState) (e : Nat) : rewardShare s e 0 = 0 := by
  unfold rewardShare
  cases s.entityRewards e <;> simp

/-- Withdraw fails on a never-finalized entity. -/
theorem withdraw_unknown_entity {s : LedgerState} {e a b : Nat}
    (hf : s.finalized e = false) :
    withdraw s e a b = .error .UnknownCollectorEntity := by
  simp [withdraw, hf]

/-- Withdraw fails with NoShare for a caller pair without a contribution. -/
theorem withdraw_no_share {s : LedgerState} {e a b : Nat}
    (hf : s.finalized e = true) (hc : s.contributions (e, a, b) = 0) :
    withdraw s e a b = .error .NoShare := by
  simp [withdraw, hf, hc, rewardShare_zero]

/-- Withdraw fails with NothingToWithdraw when nothing is currently payable. -/
theorem withdraw_nothing {s : LedgerState} {e a b : Nat}
    (hf : s.finalized e = true)
    (hns : ¬(s.contributions (e, a, b) = 0
      ∧ rewardShare s e (s.contributions (e, a, b)) = 0))
    (hz : depositPayout s e a b + rewardPayout s e a b = 0) :
    withdraw s e a b = .error .NothingToWithdraw := by
  unfold withdraw
  rw [if_neg (by simp [hf]), if_neg hns, if_pos hz]

/-- Withdraw succeeds when something is payable, paying exactly the payable
principal and resolvable reward and marking them paid. -/
theorem withdraw_ok_eq {s : LedgerState} {e a b : Nat}
    (hf : s.finalized e = true)
    (hns : ¬(s.contributions (e, a, b) = 0
      ∧ rewardShare s e (s.contributions (e, a, b)) = 0))
    (hnz : depositPayout s e a b + rewardPayout s e a b ≠ 0) :
    withdraw s e a b =
      .ok ({ s with
              withdrawnDeposit := fun k =>
                if k = (e, a, b) ∧ depositPayout s e a b ≠ 0 then true
                else s.withdrawnDeposit k,
              withdrawnReward := fun k =>
                if k = (e, a, b) ∧ rewardPayout s e a b ≠ 0 then true
                else s.withdrawnReward k },
            { collectorEntityId := e, sender := a, withdrawer := b,
              depositAmount := depositPayout s e a b,
              rewardAmount := rewardPayout s e a b }) := by
  unfold withdraw
  rw [if_neg (by simp [hf]), if_neg hns, if_neg hnz]

/-- Inversion principle for a successful withdraw call. -/
theorem withdraw_ok_inv {s : LedgerState} {e a b : Nat} {s' : LedgerState}
    {ev : UserWithdrawnEvent} (h : withdraw s e a b = .ok (s', ev)) :
    s' = { s with
            withdrawnDeposit := fun k =>
              if k = (e, a, b) ∧ depositPayout s e a b ≠ 0 then true
              else s.withdrawnDeposit k,
            withdrawnReward := fun k =>
              if k = (e, a, b) ∧ rewardPayout s e a b ≠ 0 then true
              else s.withdrawnReward k }
      ∧ ev = { collectorEntityId := e, sender := a, withdrawer := b,
               depositAmount := depositPayout s e a b,
               rewardAmount := rewardPayout s e a b } := by
  unfold withdraw at h
  split at h
  · exact absurd h (by simp)
  split at h
  · exact absurd h (by simp)
  split at h
  · exact absurd h (by simp)
  have := (Except.ok.injEq _ _).mp h
  exact ⟨((Prod.mk.injEq _ _ _ _).mp this).1.symm,
    ((Prod.mk.injEq _ _ _ _).mp this).2.symm⟩

/-- A withdraw call never touches anything but the per-user paid flags:
entities, contributions, validators, debts, reward records and the wallet
signal are unchanged whether it succeeds or fails. -/
theorem withdrawStep_frame (s : LedgerState) (e a b : Nat) :
    (withdrawStep s e a b).finalized = s.finalized
      ∧ (withdrawStep s e a b).collectedAmount = s.collectedAmount
      ∧ (withdrawStep s e a b).contributions = s.contributions
      ∧ (withdrawStep s e a b).validators = s.validators
      ∧ (withdrawStep s e a b).validatorDebts = s.validatorDebts
      ∧ (withdrawStep s e a b).entityRewards = s.entityRewards
      ∧ (withdrawStep s e a b).walletFunded = s.walletFunded := by
  unfold withdrawStep
  split
  · rename_i p h
    obtain ⟨hs, -⟩ := withdraw_ok_inv h
    subst hs
    exact ⟨rfl, rfl, rfl, rfl, rfl, rfl, rfl⟩
  · exact ⟨rfl, rfl, rfl, rfl, rfl, rfl, rfl⟩

/-- A setPaused call never touches anything but the pause flag. -/
theorem setPausedStep_frame (s : LedgerState) (c : Nat) (flag : Bool) :
    (setPausedStep s c flag).validators = s.validators
      ∧ (setPausedStep s c flag).entityRewards = s.entityRewards
      ∧ (setPausedStep s c flag).validatorDebts = s.validatorDebts := by
  unfold setPausedStep setPaused
  by_cases h : s.isAdmin c = false <;> simp [h]

/-- The wallet funding signal never touches anything but `walletFunded`. -/
theorem enableWithdrawals_frame (s : LedgerState) (w : Nat) :
    (enableWithdrawals s w).validators = s.validators
      ∧ (enableWithdrawals s w).entityRewards = s.entityRewards
      ∧ (enableWithdrawals s w).validatorDebts = s.validatorDebts := by
  exact ⟨rfl, rfl, rfl⟩

/-- A successful deposit never touches validators, debts or reward records. -/
theorem addDeposit_ok_frame {s : LedgerState} {e a b amt : Nat} {t : LedgerState}
    (h : addDeposit s e a b amt = .ok t) :
    t.validators = s.validators
      ∧ t.entityRewards = s.entityRewards
      ∧ t.validatorDebts = s.validatorDebts := by
  unfold addDeposit at h
  split at h
  · exact absurd h (by simp)
  have := (Except.ok.injEq _ _).mp h
  rw [← this]
  exact ⟨rfl, rfl, rfl⟩

/-- A successful registration writes a fresh validator identity only: the
registered identity was previously unused, every other validator record is
unchanged, and debts and reward records are untouched. -/
theorem register_ok_frame {s : LedgerState} {eid wid da fe mi wc : Nat}
    {t : LedgerState} (h : register s eid wid da fe mi wc = .ok t) :
    s.validators wid = none
      ∧ (∀ u, u ≠ wid → t.validators u = s.validators u)
      ∧ t.entityRewards = s.entityRewards
      ∧ t.validatorDebts = s.validatorDebts := by
  unfold register at h
  split at h
  · exact absurd h (by simp)
  split at h
  · exact absurd h (by simp)
  rename_i hnone
  have := (Except.ok.injEq _ _).mp h
  rw [← this]
  exact ⟨hnone, fun u hu => by simp [hu], rfl, rfl⟩

/-- After a successful withdraw that paid out principal, the deposit-paid
flag for the key is set. -/
theorem withdrawStep_deposit_flag_true {s : LedgerState} {e a b : Nat}
    (hf : s.finalized e = true)
    (hns : ¬(s.contributions (e, a, b) = 0
      ∧ rewardShare s e (s.contributions (e, a, b)) = 0))
    (hnz : depositPayout s e a b + rewardPayout s e a b ≠ 0)
    (hdep : depositPayout s e a b ≠ 0) :
    (withdrawStep s e a b).withdrawnDeposit (e, a, b) = true := by
  unfold withdrawStep
  rw [withdraw_ok_eq hf hns hnz]
  simp [hdep]

/-- A successful withdraw that paid out no reward leaves the reward-paid flag
for the key unchanged. -/
theorem withdrawStep_reward_flag_unchanged {s : LedgerState} {e a b : Nat}
    (hf : s.finalized e = true)
    (hns : ¬(s.contributions (e, a, b) = 0
      ∧ rewardShare s e (s.contributions (e, a, b)) = 0))
    (hnz : depositPayout s e a b + rewardPayout s e a b ≠ 0)
    (hrz : rewardPayout s e a b = 0) :
    (withdrawStep s e a b).withdrawnReward (e, a, b) = s.withdrawnReward (e, a, b) := by
  unfold withdrawStep
  rw [withdraw_ok_eq hf hns hnz]
  simp [hrz]

/-- C3: for every accruedReward R, a successful transfer computes
maintainerDebtDelta = floor(R * maintainerFee / 10000) and userDebtDelta =
R - maintainerDebtDelta with exact integer division, where maintainerFee is
the transferring validator's fee in basis points; in particular for
R = 0.034871228 ether and fee 2000 the split is maintainerDebtDelta =
0.0069742456 ether and userDebtDelta = 0.0278969824 ether. -/
theorem transfer_fee_split_exact
    (s : LedgerState) (caller vid nid R fee msd sd : Nat) (v : ValidatorRecord)
    (s' : LedgerState) (ev : ValidatorTransferredEvent)
    (hv : s.validators vid = some v)
    (h : registerTransfer s caller vid nid R fee msd sd = .ok (s', ev)) :
    ev.maintainerDebt = R * v.maintainerFee / 10000
      ∧ ev.userDebt = R - R * v.maintainerFee / 10000
      ∧ registerTransferOutcome demoPreState 200 5 2 34871228000000000 2000 0 0 =
          .ok { validatorId := 5, prevEntityId := 1, newEntityId := 2,
                userDebt := 27896982400000000, maintainerDebt := 6974245600000000,
                newMaintainerFee := 2000, newMinStakingDuration := 0,
                newStakingDuration := 0 } := by
  obtain ⟨v', hv', -, -, -, hev, -⟩ := registerTransfer_ok_inv h
  rw [hv] at hv'
  obtain rfl : v = v' := by injection hv'
  subst hev
  exact ⟨rfl, rfl, rfl⟩

/-- Witness for C3 at the concrete test scenario. -/
theorem transfer_fee_split_exact_witness :
    demoPreState.validators 5 = some demoValidator ∧
    ((⟨5, 1, 2, 27896982400000000, 6974245600000000, 2000, 0, 0⟩ :
        ValidatorTransferredEvent).maintainerDebt =
          34871228000000000 * demoValidator.maintainerFee / 10000
      ∧ (⟨5, 1, 2, 27896982400000000, 6974245600000000, 2000, 0, 0⟩ :
          ValidatorTransferredEvent).userDebt =
            34871228000000000 - 34871228000000000 * demoValidator.maintainerFee / 10000
      ∧ registerTransferOutcome demoPreState 200 5 2 34871228000000000 2000 0 0 =
          .ok { validatorId := 5, prevEntityId := 1, newEntityId := 2,
                userDebt := 27896982400000000, maintainerDebt := 6974245600000000,
                newMaintainerFee := 2000, newMinStakingDuration := 0,
                newStakingDuration := 0 }) :=
  ⟨rfl, transfer_fee_split_exact demoPreState 200 5 2 34871228000000000 2000 0 0
      demoValidator demoState
      ⟨5, 1, 2, 27896982400000000, 6974245600000000, 2000, 0, 0⟩ rfl rfl⟩

/-- C5: only the authorized collector for the destination entity may register
a validator transfer and only an admin may toggle the pause flag; a
registerTransfer call from a non-collector and a setPaused call from a
non-admin both fail with PermissionDenied (verbatim reason
"Permission denied.") and leave the ledger state unchanged. -/
theorem permission_enforcement
    (s : LedgerState) (c1 c2 vid nid R fee msd sd : Nat) (flag : Bool)
    (hc : s.authorizedCollector c1 nid = false)
    (ha : s.isAdmin c2 = false) :
    registerTransfer s c1 vid nid R fee msd sd = .error .PermissionDenied
      ∧ registerTransferStep s c1 vid nid R fee msd sd = s
      ∧ setPaused s c2 flag = .error .PermissionDenied
      ∧ setPausedStep s c2 flag = s
      ∧ LedgerError.PermissionDenied.reason = "Permission denied." := by
  have h1 : registerTransfer s c1 vid nid R fee msd sd = .error .PermissionDenied := by
    simp [registerTransfer, hc]
  have h2 : setPaused s c2 flag = .error .PermissionDenied := by
    simp [setPaused, ha]
  exact ⟨h1, by simp [registerTransferStep, h1], h2, by simp [setPausedStep, h2], rfl⟩

/-- C6: ValidatorDebt accumulates additively — for a validator with no prior
debt transferred twice, the resulting userDebt is the sum of the two
transfers' userDebt deltas and the maintainerDebt the sum of the two
maintainerDebt deltas (the record is incremented, never replaced). -/
theorem debt_additivity
    (s s1 s2 : LedgerState) (ev1 ev2 : ValidatorTransferredEvent)
    (c1 c2 vid e1 e2 r1 r2 f1 f2 m1 m2 d1 d2 : Nat)
    (h0 : s.validatorDebts vid = { userDebt := 0, maintainerDebt := 0 })
    (h1 : registerTransfer s c1 vid e1 r1 f1 m1 d1 = .ok (s1, ev1))
    (h2 : registerTransfer s1 c2 vid e2 r2 f2 m2 d2 = .ok (s2, ev2)) :
    s2.validatorDebts vid =
      { userDebt := ev1.userDebt + ev2.userDebt,
        maintainerDebt := ev1.maintainerDebt + ev2.maintainerDebt } := by
  obtain ⟨v1, hv1, -, -, -, hev1, hs1⟩ := registerTransfer_ok_inv h1
  obtain ⟨v2, hv2, -, -, -, hev2, hs2⟩ := registerTransfer_ok_inv h2
  subst hs1 hs2 hev1 hev2
  simp [h0]

/-- Witness for C6: the two concrete transfers of validator 5 (entity 1 to 2,
then 2 to 3) accumulate their user and maintainer debt deltas. -/
theorem debt_additivity_witness :
    demoPreState.validatorDebts 5 = { userDebt := 0, maintainerDebt := 0 }
      ∧ demoState2.validatorDebts 5 =
          { userDebt :=
              (⟨5, 1, 2, 27896982400000000, 6974245600000000, 2000, 0, 0⟩ :
                ValidatorTransferredEvent).userDebt
              + (⟨5, 2, 3, 8000000000000000, 2000000000000000, 2000, 0, 0⟩ :
                  ValidatorTransferredEvent).userDebt,
            maintainerDebt :=
              (⟨5, 1, 2, 27896982400000000, 6974245600000000, 2000, 0, 0⟩ :
                ValidatorTransferredEvent).maintainerDebt
              + (⟨5, 2, 3, 8000000000000000, 2000000000000000, 2000, 0, 0⟩ :
                  ValidatorTransferredEvent).maintainerDebt } :=
  ⟨rfl,
    debt_additivity demoPreState demoState demoState2
      ⟨5, 1, 2, 27896982400000000, 6974245600000000, 2000, 0, 0⟩
      ⟨5, 2, 3, 8000000000000000, 2000000000000000, 2000, 0, 0⟩
      200 200 5 2 3 34871228000000000 10000000000000000 2000 2000 0 0 0 0
      rfl rfl rfl⟩

/-- C9: after every successful transfer the validator record's current-entity
pointer equals the new entity id and its maintainerFee the fee passed with
the transfer, while the remaining registration terms (depositAmount,
minStakingDuration, withdrawalCredentials) are unchanged; other validators
are untouched, and no other ledger operation (withdraw, setPaused, wallet
funding, deposit, registration of a fresh identity) mutates this validator's
record. -/
theorem transfer_frame_effect
    (s s' : LedgerState) (ev : ValidatorTransferredEvent)
    (caller vid nid R fee msd sd : Nat) (v : ValidatorRecord)
    (hv : s.validators vid = some v)
    (h : registerTransfer s caller vid nid R fee msd sd = .ok (s', ev)) :
    s'.validators vid =
      some { depositAmount := v.depositAmount, maintainerFee := fee,
             minStakingDuration := v.minStakingDuration,
             withdrawalCredentials := v.withdrawalCredentials, entityId := nid }
      ∧ (∀ u, u ≠ vid → s'.validators u = s.validators u)
      ∧ (∀ e a b, (withdrawStep s e a b).validators = s.validators)
      ∧ (∀ c flag, (setPausedStep s c flag).validators = s.validators)
      ∧ (∀ w, (enableWithdrawals s w).validators = s.validators)
      ∧ (∀ e a b amt t, addDeposit s e a b amt = .ok t →
          t.validators = s.validators)
      ∧ (∀ eid wid da fe mi wc t, register s eid wid da fe mi wc = .ok t →
          t.validators vid = s.validators vid) := by
  obtain ⟨v', hv', -, -, -, -, hs'⟩ := registerTransfer_ok_inv h
  rw [hv] at hv'
  obtain rfl : v = v' := by injection hv'
  subst hs'
  refine ⟨by simp, fun u hu => by simp [hu],
    fun e a b => (withdrawStep_frame s e a b).2.2.2.1,
    fun c flag => (setPausedStep_frame s c flag).1,
    fun w => (enableWithdrawals_frame s w).1,
    fun e a b amt t ht => (addDeposit_ok_frame ht).1,
    fun eid wid da fe mi wc t ht => ?_⟩
  obtain ⟨hnone, hfr, -, -⟩ := register_ok_frame ht
  refine hfr vid fun hh => ?_
  rw [hh, hnone] at hv
  cases hv

/-- Witness for C9 at the concrete transfer of validator 5 from entity 1 to
entity 2. -/
theorem transfer_frame_effect_witness :
    demoPreState.validators 5 = some demoValidator
      ∧ (demoState.validators 5 =
          some { depositAmount := demoValidator.depositAmount, maintainerFee := 2000,
                 minStakingDuration := demoValidator.minStakingDuration,
                 withdrawalCredentials := demoValidator.withdrawalCredentials,
                 entityId := 2 }
          ∧ (∀ u, u ≠ 5 → demoState.validators u = demoPreState.validators u)
          ∧ (∀ e a b, (withdrawStep demoPreState e a b).validators =
              demoPreState.validators)
          ∧ (∀ c flag, (setPausedStep demoPreState c flag).validators =
              demoPreState.validators)
          ∧ (∀ w, (enableWithdrawals demoPreState w).validators =
              demoPreState.validators)
          ∧ (∀ e a b amt t, addDeposit demoPreState e a b amt = .ok t →
              t.validators = demoPreState.validators)
          ∧ (∀ eid wid da fe mi wc t,
              register demoPreState eid wid da fe mi wc = .ok t →
              t.validators 5 = demoPreState.validators 5)) :=
  ⟨rfl,
    transfer_frame_effect demoPreState demoState
      ⟨5, 1, 2, 27896982400000000, 6974245600000000, 2000, 0, 0⟩
      200 5 2 34871228000000000 2000 0 0 demoValidator rfl rfl⟩

/-- C7 counterexample: the reward record of a displaced entity is not
immutable — validator 5 moves from entity 1 to entity 2 (writing entity 1's
record ⟨5, 8000⟩), back from entity 2 to entity 1, and on to entity 3, and
this last successful transfer overwrites entity 1's record with ⟨5, 16000⟩,
so an entity can be the displaced party for the same validator twice. -/
theorem entity_reward_overwrite_cex :
    registerTransferOutcome demoPreState 200 5 2 10000 2000 0 0 =
        .ok ⟨5, 1, 2, 8000, 2000, 2000, 0, 0⟩
      ∧ cexState1.entityRewards 1 = some ⟨5, 8000⟩
      ∧ registerTransferOutcome cexState1 200 5 1 40000 2000 0 0 =
          .ok ⟨5, 2, 1, 32000, 8000, 2000, 0, 0⟩
      ∧ registerTransferOutcome cexState2 200 5 3 20000 2000 0 0 =
          .ok ⟨5, 1, 3, 16000, 4000, 2000, 0, 0⟩
      ∧ cexState3.entityRewards 1 = some ⟨5, 16000⟩
      ∧ (⟨5, 8000⟩ : EntityReward) ≠ ⟨5, 16000⟩ :=
  ⟨rfl, rfl, rfl, rfl, rfl, by decide⟩

/-- C7 amended: every successful transfer writes exactly one EntityReward
record, for the displaced entity, containing the transferring validator's id
and that transfer's userDebtDelta; reward records of all other entities are
unchanged, and every other ledger operation (withdraw, setPaused, wallet
funding, deposit, registration) leaves all reward records unchanged — the
record can only be replaced by a later transfer that displaces the same
entity again, which requires the validator to have been assigned to that
entity again. -/
theorem entity_reward_record
    (s s' : LedgerState) (ev : ValidatorTransferredEvent)
    (caller vid nid R fee msd sd : Nat) (v : ValidatorRecord)
    (hv : s.validators vid = some v)
    (h : registerTransfer s caller vid nid R fee msd sd = .ok (s', ev)) :
    s'.entityRewards v.entityId = some { validatorId := vid, amount := ev.userDebt }
      ∧ (∀ e, e ≠ v.entityId → s'.entityRewards e = s.entityRewards e)
      ∧ (∀ e a b, (withdrawStep s e a b).entityRewards = s.entityRewards)
      ∧ (∀ c flag, (setPausedStep s c flag).entityRewards = s.entityRewards)
      ∧ (∀ w, (enableWithdrawals s w).entityRewards = s.entityRewards)
      ∧ (∀ e a b amt t, addDeposit s e a b amt = .ok t →
          t.entityRewards = s.entityRewards)
      ∧ (∀ eid wid da fe mi wc t, register s eid wid da fe mi wc = .ok t →
          t.entityRewards = s.entityRewards) := by
  obtain ⟨v', hv', -, -, -, hev, hs'⟩ := registerTransfer_ok_inv h
  rw [hv] at hv'
  obtain rfl : v = v' := by injection hv'
  subst hs' hev
  refine ⟨by simp, fun e he => by simp [he],
    fun e a b => (withdrawStep_frame s e a b).2.2.2.2.2.1,
    fun c flag => (setPausedStep_frame s c flag).2.1,
    fun w => (enableWithdrawals_frame s w).2.1,
    fun e a b amt t ht => (addDeposit_ok_frame ht).2.1,
    fun eid wid da fe mi wc t ht => (register_ok_frame ht).2.2.1⟩

/-- Witness for the amended C7 at the concrete transfer of validator 5 from
entity 1 to entity 2. -/
theorem entity_reward_record_witness :
    demoPreState.validators 5 = some demoValidator
      ∧ (demoState.entityRewards demoValidator.entityId =
            some { validatorId := 5, amount := 27896982400000000 }
          ∧ (∀ e, e ≠ demoValidator.entityId →
              demoState.entityRewards e = demoPreState.entityRewards e)
          ∧ (∀ e a b, (withdrawStep demoPreState e a b).entityRewards =
              demoPreState.entityRewards)
          ∧ (∀ c flag, (setPausedStep demoPreState c flag).entityRewards =
              demoPreState.entityRewards)
          ∧ (∀ w, (enableWithdrawals demoPreState w).entityRewards =
              demoPreState.entityRewards)
          ∧ (∀ e a b amt t, addDeposit demoPreState e a b amt = .ok t →
              t.entityRewards = demoPreState.entityRewards)
          ∧ (∀ eid wid da fe mi wc t,
              register demoPreState eid wid da fe mi wc = .ok t →
              t.entityRewards = demoPreState.entityRewards)) :=
  ⟨rfl,
    entity_reward_record demoPreState demoState
      ⟨5, 1, 2, 27896982400000000, 6974245600000000, 2000, 0, 0⟩
      200 5 2 34871228000000000 2000 0 0 demoValidator rfl rfl⟩

/-- Witness for C5: address 300 is neither the collector nor an admin in the
demo state. -/
theorem permission_enforcement_witness :
    demoPreState.authorizedCollector 300 1 = false
      ∧ demoPreState.isAdmin 300 = false
      ∧ (registerTransfer demoPreState 300 5 1 34871228000000000 2000 0 0 =
            .error .PermissionDenied
          ∧ registerTransferStep demoPreState 300 5 1 34871228000000000 2000 0 0 =
              demoPreState
          ∧ setPaused demoPreState 300 true = .error .PermissionDenied
          ∧ setPausedStep demoPreState 300 true = demoPreState
          ∧ LedgerError.PermissionDenied.reason = "Permission denied.") :=
  ⟨rfl, rfl,
    permission_enforcement demoPreState 300 300 5 1 34871228000000000 2000 0 0
      true rfl rfl⟩

/-- C8: withdraw fails with NoShare (verbatim reason "User does not have a
share in this collector entity.") whenever the calling (sender, recipient)
pair has no recorded contribution to the entity and no pending reward for
it, and the failure leaves the ledger state unchanged. -/
theorem no_share_rejection
    (s : LedgerState) (e a b : Nat)
    (hf : s.finalized e = true)
    (hc : s.contributions (e, a, b) = 0)
    (hr : rewardShare s e (s.contributions (e, a, b)) = 0) :
    withdraw s e a b = .error .NoShare
      ∧ withdrawStep s e a b = s
      ∧ LedgerError.NoShare.reason =
          "User does not have a share in this collector entity." := by
  have h1 := withdraw_no_share hf hc
  exact ⟨h1, by simp [withdrawStep, h1], rfl⟩

/-- Witness for C8: in the post-transfer demo state, the pair (12, 12) never
contributed to entity 1 and so holds no share and no reward. -/
theorem no_share_rejection_witness :
    demoState.finalized 1 = true
      ∧ demoState.contributions (1, 12, 12) = 0
      ∧ rewardShare demoState 1 (demoState.contributions (1, 12, 12)) = 0
      ∧ (withdraw demoState 1 12 12 = .error .NoShare
          ∧ withdrawStep demoState 1 12 12 = demoState
          ∧ LedgerError.NoShare.reason =
              "User does not have a share in this collector entity.") :=
  ⟨rfl, rfl, rfl, no_share_rejection demoState 1 12 12 rfl rfl rfl⟩

/-- C1: once all principal and all currently-resolvable reward for an
(entity, sender, recipient) key have been paid out (the deposit-paid flag is
set, and the reward-paid flag is set whenever the reward is resolvable),
every subsequent withdraw call for that key fails with NothingToWithdraw
(verbatim reason "Nothing to withdraw."), no matter how many times it is
repeated. -/
theorem withdraw_idempotent_exhausted
    (s : LedgerState) (e a b : Nat)
    (hf : s.finalized e = true)
    (hc : s.contributions (e, a, b) ≠ 0)
    (hd : s.withdrawnDeposit (e, a, b) = true)
    (hr : rewardResolvable s e = true → s.withdrawnReward (e, a, b) = true) :
    (∀ n, withdrawOutcome ((fun t => withdrawStep t e a b)^[n] s) e a b =
        .error .NothingToWithdraw)
      ∧ LedgerError.NothingToWithdraw.reason = "Nothing to withdraw." := by
  have hdep : depositPayout s e a b = 0 := by simp [depositPayout, hd]
  have hrew : rewardPayout s e a b = 0 := by
    unfold rewardPayout
    by_cases hres : rewardResolvable s e = true
    · simp [hres, hr hres]
    · simp [hres]
  have herr : withdraw s e a b = .error .NothingToWithdraw :=
    withdraw_nothing hf (by simp [hc]) (by simp [hdep, hrew])
  have hfix : (fun t => withdrawStep t e a b) s = s := by
    simp [withdrawStep, herr]
  refine ⟨fun n => ?_, rfl⟩
  rw [Function.iterate_fixed hfix n]
  simp [withdrawOutcome, herr]

/-- Witness for C1: after the demo depositor withdrew their principal (the
reward still unresolvable), any number of repeated withdraw calls fails with
NothingToWithdraw. -/
theorem withdraw_idempotent_exhausted_witness :
    demoPaidState.finalized 1 = true
      ∧ demoPaidState.contributions (1, 10, 11) ≠ 0
      ∧ demoPaidState.withdrawnDeposit (1, 10, 11) = true
      ∧ (rewardResolvable demoPaidState 1 = true →
          demoPaidState.withdrawnReward (1, 10, 11) = true)
      ∧ ((∀ n, withdrawOutcome
            ((fun t => withdrawStep t 1 10 11)^[n] demoPaidState) 1 10 11 =
            .error .NothingToWithdraw)
          ∧ LedgerError.NothingToWithdraw.reason = "Nothing to withdraw.") :=
  ⟨rfl, by decide, rfl, fun h => absurd h (by decide),
    withdraw_idempotent_exhausted demoPaidState 1 10 11 rfl (by decide) rfl
      (fun h => absurd h (by decide))⟩

/-- C4: if the wallet never signals funded for the validator backing an
entity's reward record, reward withdrawal fails with NothingToWithdraw even
though a nonzero EntityReward record exists for the entity, while withdrawal
of the principal alone still succeeds independently of the wallet signal. -/
theorem unresolved_debt_blocks_reward
    (s : LedgerState) (e a b vid A : Nat)
    (hf : s.finalized e = true)
    (hc : s.contributions (e, a, b) ≠ 0)
    (her : s.entityRewards e = some { validatorId := vid, amount := A })
    (hA : A ≠ 0)
    (hw : s.walletFunded vid = false)
    (hd : s.withdrawnDeposit (e, a, b) = false) :
    withdrawOutcome s e a b =
        .ok { collectorEntityId := e, sender := a, withdrawer := b,
              depositAmount := s.contributions (e, a, b), rewardAmount := 0 }
      ∧ withdrawOutcome (withdrawStep s e a b) e a b =
          .error .NothingToWithdraw := by
  have hdep : depositPayout s e a b = s.contributions (e, a, b) := by
    simp [depositPayout, hd]
  have hres : rewardResolvable s e = false := by
    simp [rewardResolvable, her, hw]
  have hrew : rewardPayout s e a b = 0 := by simp [rewardPayout, hres]
  have hns : ¬(s.contributions (e, a, b) = 0
      ∧ rewardShare s e (s.contributions (e, a, b)) = 0) := by simp [hc]
  have hnz : depositPayout s e a b + rewardPayout s e a b ≠ 0 := by
    simp [hdep, hrew, hc]
  have hok := withdraw_ok_eq hf hns hnz
  constructor
  · simp [withdrawOutcome, hok, hdep, hrew]
  · have hf1 : (withdrawStep s e a b).finalized = s.finalized :=
      (withdrawStep_frame s e a b).1
    have hc1 : (withdrawStep s e a b).contributions = s.contributions :=
      (withdrawStep_frame s e a b).2.2.1
    have he1 : (withdrawStep s e a b).entityRewards = s.entityRewards :=
      (withdrawStep_frame s e a b).2.2.2.2.2.1
    have hw1 : (withdrawStep s e a b).walletFunded = s.walletFunded :=
      (withdrawStep_frame s e a b).2.2.2.2.2.2
    have hd1 : (withdrawStep s e a b).withdrawnDeposit (e, a, b) = true :=
      withdrawStep_deposit_flag_true hf hns hnz (by simp [hdep, hc])
    have hres1 : rewardResolvable (withdrawStep s e a b) e = false := by
      unfold rewardResolvable
      rw [he1, her, hw1]
      exact hw
    have herr2 : withdraw (withdrawStep s e a b) e a b =
        .error .NothingToWithdraw := by
      apply withdraw_nothing
      · rw [hf1]; exact hf
      · rw [hc1]
        intro hcontra
        exact hc hcontra.1
      · have hz1 : depositPayout (withdrawStep s e a b) e a b = 0 := by
          simp [depositPayout, hd1]
        have hz2 : rewardPayout (withdrawStep s e a b) e a b = 0 := by
          simp [rewardPayout, hres1]
        simp [hz1, hz2]
    simp [withdrawOutcome, herr2]

/-- Witness for C4: in the post-transfer demo state the wallet is not funded,
entity 1 has the nonzero reward record ⟨5, 0.0278969824 ether⟩, the depositor
withdraws the full 32-ether principal, and the follow-up reward withdrawal
fails with NothingToWithdraw. -/
theorem unresolved_debt_blocks_reward_witness :
    demoState.finalized 1 = true
      ∧ demoState.contributions (1, 10, 11) ≠ 0
      ∧ demoState.entityRewards 1 =
          some { validatorId := 5, amount := 27896982400000000 }
      ∧ (27896982400000000 : Nat) ≠ 0
      ∧ demoState.walletFunded 5 = false
      ∧ demoState.withdrawnDeposit (1, 10, 11) = false
      ∧ (withdrawOutcome demoState 1 10 11 =
            .ok { collectorEntityId := 1, sender := 10, withdrawer := 11,
                  depositAmount := demoState.contributions (1, 10, 11),
                  rewardAmount := 0 }
          ∧ withdrawOutcome (withdrawStep demoState 1 10 11) 1 10 11 =
              .error .NothingToWithdraw) :=
  ⟨rfl, by decide, rfl, by decide, rfl, rfl,
    unresolved_debt_blocks_reward demoState 1 10 11 5 27896982400000000
      rfl (by decide) rfl (by decide) rfl rfl⟩

/-- C2: withdrawal decomposes correctly across calls — for a depositor with
principal P and pending reward W on a transferred-away entity, a withdraw
call before the wallet signals funded pays exactly {P, 0}; a later withdraw
call after the wallet signals funded pays exactly {0, W}; and a single
withdraw call made after both principal and reward are ready pays exactly
{P, W}; in every case the emitted UserWithdrawn event carries those
depositAmount/rewardAmount fields. -/
theorem withdraw_decomposition
    (s : LedgerState) (e a b vid P A W : Nat)
    (hf : s.finalized e = true)
    (hc : s.contributions (e, a, b) = P)
    (hP : P ≠ 0)
    (her : s.entityRewards e = some { validatorId := vid, amount := A })
    (hW : A * P / s.collectedAmount e = W)
    (hW0 : W ≠ 0)
    (hw : s.walletFunded vid = false)
    (hd : s.withdrawnDeposit (e, a, b) = false)
    (hrw : s.withdrawnReward (e, a, b) = false) :
    withdrawOutcome s e a b =
        .ok { collectorEntityId := e, sender := a, withdrawer := b,
              depositAmount := P, rewardAmount := 0 }
      ∧ withdrawOutcome (enableWithdrawals (withdrawStep s e a b) vid) e a b =
          .ok { collectorEntityId := e, sender := a, withdrawer := b,
                depositAmount := 0, rewardAmount := W }
      ∧ withdrawOutcome (enableWithdrawals s vid) e a b =
          .ok { collectorEntityId := e, sender := a, withdrawer := b,
                depositAmount := P, rewardAmount := W } := by
  have hcne : s.contributions (e, a, b) ≠ 0 := by rw [hc]; exact hP
  have hdep : depositPayout s e a b = P := by simp [depositPayout, hd, hc]
  have hres : rewardResolvable s e = false := by simp [rewardResolvable, her, hw]
  have hrew : rewardPayout s e a b = 0 := by simp [rewardPayout, hres]
  have hns : ¬(s.contributions (e, a, b) = 0
      ∧ rewardShare s e (s.contributions (e, a, b)) = 0) := by simp [hcne]
  have hnz : depositPayout s e a b + rewardPayout s e a b ≠ 0 := by
    simp [hdep, hrew, hP]
  have hok := withdraw_ok_eq hf hns hnz
  refine ⟨by simp [withdrawOutcome, hok, hdep, hrew], ?_, ?_⟩
  · -- second call, after the principal was withdrawn and the wallet funded
    have hf1 : (withdrawStep s e a b).finalized = s.finalized :=
      (withdrawStep_frame s e a b).1
    have hcol1 : (withdrawStep s e a b).collectedAmount = s.collectedAmount :=
      (withdrawStep_frame s e a b).2.1
    have hc1 : (withdrawStep s e a b).contributions = s.contributions :=
      (withdrawStep_frame s e a b).2.2.1
    have he1 : (withdrawStep s e a b).entityRewards = s.entityRewards :=
      (withdrawStep_frame s e a b).2.2.2.2.2.1
    have hd1 : (withdrawStep s e a b).withdrawnDeposit (e, a, b) = true :=
      withdrawStep_deposit_flag_true hf hns hnz (by simp [hdep, hP])
    have hrw1 : (withdrawStep s e a b).withdrawnReward (e, a, b) = false := by
      rw [withdrawStep_reward_flag_unchanged hf hns hnz hrew]
      exact hrw
    have hf2 : (enableWithdrawals (withdrawStep s e a b) vid).finalized e = true := by
      simp [enableWithdrawals, hf1, hf]
    have hc2 : (enableWithdrawals (withdrawStep s e a b) vid).contributions (e, a, b)
        = P := by simp [enableWithdrawals, hc1, hc]
    have her2 : (enableWithdrawals (withdrawStep s e a b) vid).entityRewards e =
        some { validatorId := vid, amount := A } := by
      simp [enableWithdrawals, he1, her]
    have hres2 : rewardResolvable (enableWithdrawals (withdrawStep s e a b) vid) e
        = true := by
      unfold rewardResolvable
      rw [her2]
      simp [enableWithdrawals]
    have hshare2 : rewardShare (enableWithdrawals (withdrawStep s e a b) vid) e P
        = W := by
      unfold rewardShare
      rw [her2]
      simpa [enableWithdrawals, hcol1] using hW
    have hdep2 : depositPayout (enableWithdrawals (withdrawStep s e a b) vid) e a b
        = 0 := by
      simp [depositPayout, enableWithdrawals, hd1]
    have hrew2 : rewardPayout (enableWithdrawals (withdrawStep s e a b) vid) e a b
        = W := by
      unfold rewardPayout
      rw [if_pos ⟨hres2, by simpa [enableWithdrawals] using hrw1⟩, hc2, hshare2]
    have hok2 := withdraw_ok_eq hf2
      (by rw [hc2]; simp [hP]) (by simp [hdep2, hrew2, hW0])
    simp [withdrawOutcome, hok2, hdep2, hrew2]
  · -- single call with the wallet already funded
    have hf3 : (enableWithdrawals s vid).finalized e = true := by
      simp [enableWithdrawals, hf]
    have hc3 : (enableWithdrawals s vid).contributions (e, a, b) = P := by
      simp [enableWithdrawals, hc]
    have her3 : (enableWithdrawals s vid).entityRewards e =
        some { validatorId := vid, amount := A } := by
      simp [enableWithdrawals, her]
    have hres3 : rewardResolvable (enableWithdrawals s vid) e = true := by
      unfold rewardResolvable
      rw [her3]
      simp [enableWithdrawals]
    have hshare3 : rewardShare (enableWithdrawals s vid) e P = W := by
      unfold rewardShare
      rw [her3]
      simpa [enableWithdrawals] using hW
    have hdep3 : depositPayout (enableWithdrawals s vid) e a b = P := by
      simp [depositPayout, enableWithdrawals, hd, hc]
    have hrew3 : rewardPayout (enableWithdrawals s vid) e a b = W := by
      unfold rewardPayout
      rw [if_pos ⟨hres3, by simpa [enableWithdrawals] using hrw⟩, hc3, hshare3]
    have hok3 := withdraw_ok_eq hf3
      (by rw [hc3]; simp [hP]) (by simp [hdep3, hrew3, hP])
    simp [withdrawOutcome, hok3, hdep3, hrew3]

/-- Witness for C2 at the concrete test scenario: principal 32 ether, pending
reward 0.0278969824 ether on entity 1 after the transfer. -/
theorem withdraw_decomposition_witness :
    demoState.finalized 1 = true
      ∧ demoState.contributions (1, 10, 11) = validatorDepositAmount
      ∧ validatorDepositAmount ≠ 0
      ∧ demoState.entityRewards 1 =
          some { validatorId := 5, amount := 27896982400000000 }
      ∧ 27896982400000000 * validatorDepositAmount / demoState.collectedAmount 1 =
          27896982400000000
      ∧ (27896982400000000 : Nat) ≠ 0
      ∧ demoState.walletFunded 5 = false
      ∧ demoState.withdrawnDeposit (1, 10, 11) = false
      ∧ demoState.withdrawnReward (1, 10, 11) = false
      ∧ (withdrawOutcome demoState 1 10 11 =
            .ok { collectorEntityId := 1, sender := 10, withdrawer := 11,
                  depositAmount := validatorDepositAmount, rewardAmount := 0 }
          ∧ withdrawOutcome (enableWithdrawals (withdrawStep demoState 1 10 11) 5)
              1 10 11 =
              .ok { collectorEntityId := 1, sender := 10, withdrawer := 11,
                    depositAmount := 0, rewardAmount := 27896982400000000 }
          ∧ withdrawOutcome (enableWithdrawals demoState 5) 1 10 11 =
              .ok { collectorEntityId := 1, sender := 10, withdrawer := 11,
                    depositAmount := validatorDepositAmount,
                    rewardAmount := 27896982400000000 }) :=
  ⟨rfl, rfl, by decide, rfl, by decide, by decide, rfl, rfl, rfl,
    withdraw_decomposition demoState 1 10 11 5 validatorDepositAmount
      27896982400000000 27896982400000000 rfl rfl (by decide) rfl (by decide)
      (by decide) rfl rfl rfl⟩

/-- C10: a single deposit of exactly the staking unit
(validatorDepositAmount) into a fresh entity finalizes it at once — with no
separate finalize operation invoked — and the entity is immediately usable
both as the target of a validator registration and as the destination of a
validator transfer. -/
theorem deposit_alone_finalizes
    (s : LedgerState) (e a b vid2 caller vid R fee msd sd da fe mi wc : Nat)
    (v : ValidatorRecord)
    (hfresh : s.finalized e = false)
    (hcoll : s.collectedAmount e = 0)
    (hnew : s.validators vid2 = none)
    (hauth : s.authorizedCollector caller e = true)
    (hpause : s.paused = false)
    (hval : s.validators vid = some v) :
    addDeposit s e a b validatorDepositAmount =
        .ok (addDepositStep s e a b validatorDepositAmount)
      ∧ (addDepositStep s e a b validatorDepositAmount).finalized e = true
      ∧ (∃ t, register (addDepositStep s e a b validatorDepositAmount)
          e vid2 da fe mi wc = .ok t)
      ∧ (∃ t ev, registerTransfer (addDepositStep s e a b validatorDepositAmount)
          caller vid e R fee msd sd = .ok (t, ev)) := by
  have h1 : addDeposit s e a b validatorDepositAmount =
      .ok { s with
            contributions := fun k =>
              if k = (e, a, b) then s.contributions k + validatorDepositAmount
              else s.contributions k,
            collectedAmount := fun k =>
              if k = e then s.collectedAmount e + validatorDepositAmount
              else s.collectedAmount k,
            finalized := fun k =>
              if k = e then
                decide (s.collectedAmount e + validatorDepositAmount =
                  validatorDepositAmount)
              else s.finalized k } := by
    unfold addDeposit
    rw [if_neg (by simp [hfresh])]
  have h2 : addDepositStep s e a b validatorDepositAmount =
      { s with
        contributions := fun k =>
          if k = (e, a, b) then s.contributions k + validatorDepositAmount
          else s.contributions k,
        collectedAmount := fun k =>
          if k = e then s.collectedAmount e + validatorDepositAmount
          else s.collectedAmount k,
        finalized := fun k =>
          if k = e then
            decide (s.collectedAmount e + validatorDepositAmount =
              validatorDepositAmount)
          else s.finalized k } := by
    unfold addDepositStep
    rw [h1]
  have hfin : (addDepositStep s e a b validatorDepositAmount).finalized e = true := by
    rw [h2]
    simp [hcoll]
  refine ⟨by rw [h2]; exact h1, hfin, ?_, ?_⟩
  · have hn : (addDepositStep s e a b validatorDepositAmount).validators vid2 = none := by
      rw [h2]; exact hnew
    cases hres : register (addDepositStep s e a b validatorDepositAmount)
        e vid2 da fe mi wc with
    | ok t => exact ⟨t, rfl⟩
    | error err =>
      exfalso
      unfold register at hres
      rw [if_neg (by simp [hfin]), hn] at hres
      exact Except.noConfusion hres
  · have hv2 : (addDepositStep s e a b validatorDepositAmount).validators vid
        = some v := by
      rw [h2]; exact hval
    cases hres : registerTransfer (addDepositStep s e a b validatorDepositAmount)
        caller vid e R fee msd sd with
    | ok p => exact ⟨p.1, p.2, rfl⟩
    | error err =>
      exfalso
      unfold registerTransfer at hres
      rw [if_neg (by rw [h2]; simp [hauth]), if_neg (by rw [h2]; simp [hpause]),
        hv2] at hres
      simp [hfin] at hres

/-- Witness for C10: entity 4 is fresh in the demo state; one 32-ether
deposit finalizes it, validator identity 6 can be registered to it, and
validator 5 can be transferred to it. -/
theorem deposit_alone_finalizes_witness :
    demoPreState.finalized 4 = false
      ∧ demoPreState.collectedAmount 4 = 0
      ∧ demoPreState.validators 6 = none
      ∧ demoPreState.authorizedCollector 200 4 = true
      ∧ demoPreState.paused = false
      ∧ demoPreState.validators 5 = some demoValidator
      ∧ (addDeposit demoPreState 4 10 11 validatorDepositAmount =
            .ok (addDepositStep demoPreState 4 10 11 validatorDepositAmount)
          ∧ (addDepositStep demoPreState 4 10 11 validatorDepositAmount).finalized 4
              = true
          ∧ (∃ t, register (addDepositStep demoPreState 4 10 11 validatorDepositAmount)
              4 6 validatorDepositAmount 523 0 0 = .ok t)
          ∧ (∃ t ev,
              registerTransfer (addDepositStep demoPreState 4 10 11 validatorDepositAmount)
                200 5 4 10000000000000000 523 0 0 = .ok (t, ev))) :=
  ⟨rfl, rfl, rfl, rfl, rfl, rfl,
    deposit_alone_finalizes demoPreState 4 10 11 6 200 5 10000000000000000
      523 0 0 validatorDepositAmount 523 0 0 demoValidator rfl rfl rfl rfl rfl rfl⟩

end Contracts
